import Mathlib

/-!
Verification development for the AgentWiki repository: the Method Card
engine (store, retriever, scorer, comparison orchestrator) and the
frontend helpers in `frontend/src`.

The backend modules (`api.py`, the store, retriever, scorer and
orchestrator) are not present in the repository snapshot; only their
documentation and the React frontend are.  Definitions for those parts
are therefore modelled from the specification (each such definition says
so in its doc comment).  The frontend definitions are direct shallow
embeddings of the TypeScript sources, with JavaScript strings modelled
as Lean `String`, JavaScript numbers as `ℚ`, and `null`/`undefined` as
`Option`.
-/

/- ## Text primitives (models of the JavaScript / Python string operations) -/

/-- Model of `.toLowerCase()` / Python `.lower()`: lowercase every character. -/
def lowerStr (s : String) : String := ⟨s.data.map Char.toLower⟩

/-- Model of JavaScript `.trim()` / Python `.strip()`: drop leading and
trailing whitespace. -/
def trimStr (s : String) : String :=
  ⟨((s.data.dropWhile Char.isWhitespace).reverse.dropWhile Char.isWhitespace).reverse⟩

/-- Helper of `splitWs`: walk over the characters, accumulating the current
token in reverse. -/
def splitWsAux : List Char → List Char → List String
  | [], acc => if acc.isEmpty then [] else [⟨acc.reverse⟩]
  | c :: cs, acc =>
    if c.isWhitespace then
      (if acc.isEmpty then [] else [(⟨acc.reverse⟩ : String)]) ++ splitWsAux cs []
    else splitWsAux cs (c :: acc)

/-- Model of Python `str.split()` with no argument: the whitespace-separated
tokens of a string, with empty tokens dropped. -/
def splitWs (s : String) : List String := splitWsAux s.data []

/-- Model of the substring test (`in` on Python strings, `.includes` in JS):
`needle` occurs contiguously inside `hay`. -/
def containsSub (needle hay : String) : Bool := decide (needle.data <:+: hay.data)

/- ## Frontend: `buildHeaders` (frontend/src/lib/api.ts, lines 15-19) -/

namespace Frontend

/-- Shallow embedding of `buildHeaders` from `frontend/src/lib/api.ts`:
start from a record holding only `Content-Type`, and add `X-Agent-ID`
exactly when `agentId?.trim()` is truthy (i.e. `agentId` is a string whose
trim is non-empty).  The record is modelled as an association list in
insertion order; `null` and `undefined` are both modelled as `none`. -/
def buildHeaders (agentId : Option String) : List (String × String) :=
  [("Content-Type", "application/json")] ++
    (match agentId with
     | some a => if trimStr a = "" then [] else [("X-Agent-ID", trimStr a)]
     | none => [])

/- ## Frontend: `runToStats` (frontend/src/components/RunComparison.tsx, lines 19-32) -/

/-- The `RunResult` interface of `frontend/src/lib/api.ts` as it is used by
`runToStats`: fields the code guards with `?? `or `!= null` are `Option`s. -/
structure RunResult where
  output : Option String
  plan : String
  retry_count : Option Nat
  time_seconds : ℚ
  score : Option ℚ
  cards_used : Option Nat
  cards_used_ids : Option (List String)
deriving DecidableEq

/-- The `badgeType` union `"default" | "accent"` of `RunComparison.tsx`. -/
inductive BadgeType
  | default
  | accent
deriving DecidableEq

/-- The `RunStats` interface of `RunComparison.tsx`. -/
structure RunStats where
  title : String
  badge : String
  badgeType : BadgeType
  time : String
  retries : Nat
  score : String
  output : String
  playbooks : Option Nat
deriving DecidableEq

/-- Shallow embedding of `runToStats` from
`frontend/src/components/RunComparison.tsx`: `null` run gives `null`; a
`null` score is replaced by `0` before rendering `` `${score}/10` ``;
`playbooks` is present exactly for the accent badge with a non-null
`cards_used`. -/
def runToStats (run : Option RunResult) (title badge : String) (badgeType : BadgeType) :
    Option RunStats :=
  match run with
  | none => none
  | some r =>
    let score : ℚ := match r.score with
      | some s => s
      | none => 0
    some { title := title
           badge := badge
           badgeType := badgeType
           time := toString r.time_seconds ++ " s"
           retries := r.retry_count.getD 0
           score := toString score ++ "/10"
           output := r.output.getD "(No output)"
           playbooks := if badgeType = BadgeType.accent ∧ r.cards_used ≠ none
                        then r.cards_used else none }

/- ## Frontend: `RUN_STEPS` / `getRunStatusLabel` (src/unnamed/part_004) -/

/-- Shallow embedding of the `RUN_STEPS` constant: `(afterSec, label)` pairs. -/
def RUN_STEPS : List (ℚ × String) :=
  [(0, "Running static agent…"),
   (5, "Searching playbooks…"),
   (12, "Running AgentWiki…"),
   (25, "Scoring both runs…"),
   (35, "Finishing…")]

/-- Shallow embedding of `getRunStatusLabel`: start from `RUN_STEPS[0].label`
and overwrite with each step's label whose `afterSec` is at most
`elapsedSec`, in list order. -/
def getRunStatusLabel (elapsedSec : ℚ) : String :=
  RUN_STEPS.foldl (fun last step => if step.1 ≤ elapsedSec then step.2 else last)
    (RUN_STEPS.headD (0, "")).2

/-- Index (into `RUN_STEPS`) of the step whose label `getRunStatusLabel`
returns, as a standalone function of the elapsed time. -/
def stepIndex (e : ℚ) : Nat :=
  if 35 ≤ e then 4 else if 25 ≤ e then 3 else if 12 ≤ e then 2 else if 5 ≤ e then 1 else 0

theorem getRunStatusLabel_eq (e : ℚ) :
    getRunStatusLabel e =
      if 35 ≤ e then "Finishing…"
      else if 25 ≤ e then "Scoring both runs…"
      else if 12 ≤ e then "Running AgentWiki…"
      else if 5 ≤ e then "Searching playbooks…"
      else "Running static agent…" := by
  simp only [getRunStatusLabel, RUN_STEPS, List.foldl_cons, List.foldl_nil, List.headD,
    ite_self]

end Frontend

/- ## CardStore (modelled from the spec) -/

/-- Modelled from the spec: the backend `memory` module (MethodCard record)
is not under `src/`.  A Method Card per §3 of the spec: `id` and
`timestamp` assigned at creation, six free-text fields, `outcome_score`,
`tags`, and the only mutable field `upvotes`.  The opaque unique id and the
creation time are modelled as naturals. -/
structure MethodCard where
  id : Nat
  timestamp : Nat
  task_intent : String
  context : String
  plan : String
  tool_calls : String
  mistakes : String
  fixes : String
  outcome_score : ℚ
  tags : List String
  upvotes : Nat
deriving DecidableEq

/-- Modelled from the spec: the input to `put` — a card without the
store-assigned `id`, `timestamp` and `upvotes`. -/
structure CardInput where
  task_intent : String
  context : String
  plan : String
  tool_calls : String
  mistakes : String
  fixes : String
  outcome_score : ℚ
  tags : List String
deriving DecidableEq

/-- Modelled from the spec: the two interchangeable storage backends
(durable ClickHouse vs. local JSON file). -/
inductive Backend
  | durable
  | fallback
deriving DecidableEq

/-- Modelled from the spec: store errors surfaced to callers.  Only
`NotFound` is caller-visible; storage-backend failure silently falls back
and is never surfaced. -/
inductive StoreError
  | NotFound
deriving DecidableEq

/-- Modelled from the spec: the CardStore state — the currently selected
backend, the persisted records, and the source of fresh unique ids. -/
structure CardStore where
  backend : Backend
  cards : List MethodCard
  nextId : Nat
deriving DecidableEq

namespace CardStore

/-- Modelled from the spec: `put(card_without_id) -> id` assigns a unique id
and timestamp, persists the record (with `upvotes` defaulting to 0) and
returns the id; it never fails the caller — if the durable backend is
unreachable (`durableOk = false`) it silently switches to the fallback
backend and still persists. -/
def put (s : CardStore) (durableOk : Bool) (now : Nat) (c : CardInput) : CardStore × Nat :=
  let card : MethodCard :=
    { id := s.nextId
      timestamp := now
      task_intent := c.task_intent
      context := c.context
      plan := c.plan
      tool_calls := c.tool_calls
      mistakes := c.mistakes
      fixes := c.fixes
      outcome_score := c.outcome_score
      tags := c.tags
      upvotes := 0 }
  let backend := if s.backend = Backend.durable ∧ durableOk = false
                 then Backend.fallback else s.backend
  ({ backend := backend, cards := s.cards ++ [card], nextId := s.nextId + 1 }, s.nextId)

/-- Modelled from the spec: `get(id) -> card | NotFound`. -/
def get (s : CardStore) (id : Nat) : Except StoreError MethodCard :=
  match s.cards.find? (fun c => c.id == id) with
  | some c => Except.ok c
  | none => Except.error StoreError.NotFound

/-- Modelled from the spec: `increment_upvote(id) -> new_count | NotFound` —
a read-modify-write that bumps the card's `upvotes` by one. -/
def increment_upvote (s : CardStore) (id : Nat) : Except StoreError (CardStore × Nat) :=
  match s.cards.find? (fun c => c.id == id) with
  | some c =>
    Except.ok
      ({ s with cards := s.cards.map (fun d =>
          if d.id == id then { d with upvotes := d.upvotes + 1 } else d) },
       c.upvotes + 1)
  | none => Except.error StoreError.NotFound

/-- The upvote count currently stored for `id`, if the id is present. -/
def upvotesOf (s : CardStore) (id : Nat) : Option Nat :=
  (s.cards.find? (fun c => c.id == id)).map MethodCard.upvotes

/-- `increment_upvote` applied `n` times sequentially to the same id
(an error leaves the store unchanged). -/
def upvoteN (s : CardStore) (id : Nat) : Nat → CardStore
  | 0 => s
  | n + 1 =>
    match increment_upvote (upvoteN s id n) id with
    | Except.ok (s', _) => s'
    | Except.error _ => upvoteN s id n

/-- One store operation, for stating store-wide invariants. -/
inductive StoreOp
  | putOp (durableOk : Bool) (now : Nat) (c : CardInput)
  | upvoteOp (id : Nat)

/-- Apply one store operation (a failed upvote leaves the store unchanged). -/
def applyOp (s : CardStore) : StoreOp → CardStore
  | StoreOp.putOp ok now c => (put s ok now c).1
  | StoreOp.upvoteOp id =>
    match increment_upvote s id with
    | Except.ok (s', _) => s'
    | Except.error _ => s

/-- Apply a sequence of store operations in order. -/
def applyOps (s : CardStore) (ops : List StoreOp) : CardStore := ops.foldl applyOp s

/-- Store well-formedness: every stored id was drawn from the fresh-id
source, so the next assigned id is unused. -/
def Wf (s : CardStore) : Prop := ∀ c ∈ s.cards, c.id < s.nextId

instance (s : CardStore) : Decidable (Wf s) := by
  unfold Wf; infer_instance

/-- The empty store on the durable backend. -/
def empty : CardStore := { backend := Backend.durable, cards := [], nextId := 0 }

end CardStore

/- ## Sorting helper (structural insertion sort, usable by `decide`) -/

/-- Insert `a` into `l` before the first element `b` with `le a b`. -/
def insertBy (le : α → α → Bool) (a : α) : List α → List α
  | [] => [a]
  | b :: l => if le a b then a :: b :: l else b :: insertBy le a l

/-- Insertion sort by the boolean comparison `le`. -/
def sortBy (le : α → α → Bool) : List α → List α
  | [] => []
  | a :: l => insertBy le a (sortBy le l)

theorem mem_insertBy {le : α → α → Bool} {a b : α} {l : List α} :
    a ∈ insertBy le b l ↔ a = b ∨ a ∈ l := by
  induction l with
  | nil => simp [insertBy]
  | cons c l ih =>
    unfold insertBy
    by_cases h : le b c = true
    · simp [h]
    · simp only [if_neg h, List.mem_cons, ih]
      tauto

theorem mem_sortBy {le : α → α → Bool} {a : α} {l : List α} :
    a ∈ sortBy le l ↔ a ∈ l := by
  induction l with
  | nil => simp [sortBy]
  | cons b l ih => simp [sortBy, mem_insertBy, ih]

/- ## Retriever (modelled from the spec) -/

namespace Retriever

/-- Modelled from the spec: the fixed working-set size W (e.g. 50),
independent of the caller's limit. -/
def W : Nat := 50

/-- Modelled from the spec: the fixed number K of cards the augmented phase
retrieves (a fixed small constant, e.g. 3–5). -/
def K : Nat := 3

/-- Modelled from the spec: lowercase the query and tokenize it into
whitespace-separated terms. -/
def tokenize (q : String) : List String := splitWs (lowerStr q)

/-- Modelled from the spec: retain a card if any query term is a
case-insensitive substring of its `task_intent`, its `plan`, or any tag. -/
def cardMatches (terms : List String) (c : MethodCard) : Bool :=
  terms.any (fun t =>
    containsSub t (lowerStr c.task_intent) || containsSub t (lowerStr c.plan) ||
      c.tags.any (fun tag => containsSub t (lowerStr tag)))

/-- Working-set order: `outcome_score` desc, tie-broken by recency
(`timestamp` desc). -/
def recentLE (a b : MethodCard) : Bool :=
  decide (b.outcome_score < a.outcome_score ∨
    (a.outcome_score = b.outcome_score ∧ b.timestamp ≤ a.timestamp))

/-- Result order: `(outcome_score desc, upvotes desc, timestamp desc)`. -/
def rankLE (a b : MethodCard) : Bool :=
  decide (b.outcome_score < a.outcome_score ∨
    (a.outcome_score = b.outcome_score ∧
      (b.upvotes < a.upvotes ∨ (a.upvotes = b.upvotes ∧ b.timestamp ≤ a.timestamp))))

/-- Modelled from the spec (§4.2): `search(query, limit)` — fetch the top-W
working set from the store, keep all of it when the query is empty and
otherwise filter by `cardMatches`, sort survivors by
`(outcome_score desc, upvotes desc, timestamp desc)`, truncate to `limit`. -/
def search (s : CardStore) (q : String) (limit : Nat) : List MethodCard :=
  let working := (sortBy recentLE s.cards).take W
  let matched := if q = "" then working else working.filter (cardMatches (tokenize q))
  (sortBy rankLE matched).take limit

/-- The claim's matching predicate, stated in `Prop`: some whitespace token
of the query occurs case-insensitively inside the card's `task_intent`,
`plan`, or one of its tags. -/
def MatchesQuery (q : String) (c : MethodCard) : Prop :=
  ∃ t ∈ tokenize q,
    (t.data <:+: (lowerStr c.task_intent).data) ∨
    (t.data <:+: (lowerStr c.plan).data) ∨
    ∃ tag ∈ c.tags, t.data <:+: (lowerStr tag).data

end Retriever

/- ## Scorer (modelled from the spec) -/

namespace Scorer

/-- Clamp an evaluator-returned value into the score range [0, 10]. -/
def clampScore (x : ℚ) : ℚ := min 10 (max 0 x)

/-- Modelled from the spec (§4.4): the deterministic fallback scoring path,
used when the evaluator collaborator is unconfigured or fails — a pure
function of the output text alone: a base score plus fixed bonuses for
length thresholds and structural markers (a heading marker, a list
marker), capped at 10 and floored at 0.  No randomness, no external
calls. -/
def fallback_score (output : String) : ℚ :=
  let base : ℚ := 5
  let lenBonus : ℚ :=
    (if 200 ≤ output.length then 1 else 0) + (if 600 ≤ output.length then 1 else 0)
  let structureBonus : ℚ :=
    (if containsSub "#" output then 1 else 0) + (if containsSub "- " output then 1 else 0)
  min 10 (max 0 (base + lenBonus + structureBonus))

/-- Modelled from the spec: `score` — delegate to the external evaluator and
clamp into [0, 10] when it is configured (`some f`), otherwise take the
deterministic fallback path. -/
def score (evaluator : Option (String → ℚ)) (output : String) : ℚ :=
  match evaluator with
  | some f => clampScore (f output)
  | none => fallback_score output

end Scorer

/- ## Orchestrator (modelled from the spec) -/

namespace Orchestrator

/-- Modelled from the spec: what one settled execution phase hands back when
it succeeds — the output text, the elapsed time, the retry count, and (for
the augmented side) the structured `plan`/`mistakes`/`fixes` strings the
external collaborator produced.  A phase that timed out or errored is
`none`. -/
structure RunOutcome where
  output : String
  plan : String
  mistakes : String
  fixes : String
  time_seconds : ℚ
  retry_count : Nat
deriving DecidableEq

/-- Modelled from the spec (§3): the transient `ComparisonResult` — the task
text, the two optional run results, the score pair, the delta (absent
unless both scores are present), and the optional error description. -/
structure ComparisonResult where
  task : String
  run_static : Option RunOutcome
  run_agentwiki : Option RunOutcome
  cards_used_ids : List Nat
  score_static : Option ℚ
  score_agentwiki : Option ℚ
  delta : Option ℚ
  error : Option String

/-- Modelled from the spec (§4.3, §7): `run_compare(task, write_back)`.
The two phase outcomes (`base`, `aug`) arrive already settled from the
external agent-execution collaborator — `none` records a timeout or a
collaborator error.  Each present output is scored; `delta` is computed
only when both scores are present; the `error` field is set only when the
task is invalid (blank) or both phases failed; write-back, when requested
and the augmented phase succeeded, builds a Method Card from the augmented
run and `put`s it (total even when the durable backend is down). -/
def run_compare (evaluator : Option (String → ℚ)) (durableOk : Bool) (s : CardStore)
    (now : Nat) (task : String) (write_back : Bool)
    (base aug : Option RunOutcome) : ComparisonResult × CardStore :=
  if trimStr task = "" then
    ({ task := task
       run_static := none
       run_agentwiki := none
       cards_used_ids := []
       score_static := none
       score_agentwiki := none
       delta := none
       error := some "invalid task" }, s)
  else
    let consulted := Retriever.search s task Retriever.K
    let ss := base.map (fun r => Scorer.score evaluator r.output)
    let sa := aug.map (fun r => Scorer.score evaluator r.output)
    let delta := match ss, sa with
      | some a, some b => some (b - a)
      | _, _ => none
    let err := if base = none ∧ aug = none then some "both runs failed" else none
    let s' := match write_back, aug, sa with
      | true, some r, some sc =>
        (CardStore.put s durableOk now
          { task_intent := task
            context := ""
            plan := r.plan
            tool_calls := ""
            mistakes := r.mistakes
            fixes := r.fixes
            outcome_score := sc
            tags := Retriever.tokenize task }).1
      | _, _, _ => s
    ({ task := task
       run_static := base
       run_agentwiki := aug
       cards_used_ids := consulted.map MethodCard.id
       score_static := ss
       score_agentwiki := sa
       delta := delta
       error := err }, s')

end Orchestrator

/- ## Durable persisted layout (from the repository documentation) -/

/-- The column list of the `CREATE TABLE method_cards` DDL documented in
`HOW-STUFF-WORKS.md` (the statement the app issues on first insert). -/
def method_cards_columns : List String :=
  ["id", "timestamp", "task_intent", "context", "plan", "tool_calls",
   "mistakes", "fixes", "outcome_score", "tags"]

/-- The `ORDER BY (timestamp, id)` physical ordering key of that DDL. -/
def method_cards_order_by : List String := ["timestamp", "id"]

/-- The column list after the manual migration the README documents for the
"Unknown identifier upvotes" gotcha:
`ALTER TABLE method_cards ADD COLUMN upvotes Int64 DEFAULT 0`. -/
def method_cards_columns_after_alter : List String := method_cards_columns ++ ["upvotes"]

/-- Modelled from the spec (refinement side, §6 "Persisted layout"): the
column list the spec claims for the durable table, to be compared with the
repository's own DDL. -/
def spec_persisted_columns : List String :=
  ["id", "timestamp", "task_intent", "context", "plan", "tool_calls",
   "mistakes", "fixes", "outcome_score", "tags", "upvotes"]

/- ## Demo data for witnesses -/

/-- The seeded card of the spec's §8 scenario: task intent
"explain recursion basics", plan "use a simple example", score 8. -/
def demoCard : MethodCard :=
  { id := 0
    timestamp := 1
    task_intent := "explain recursion basics"
    context := ""
    plan := "use a simple example"
    tool_calls := ""
    mistakes := ""
    fixes := ""
    outcome_score := 8
    tags := ["recursion"]
    upvotes := 0 }

/-- A one-card store seeded with `demoCard`. -/
def demoStore : CardStore := { backend := Backend.durable, cards := [demoCard], nextId := 1 }

/-- A concrete successful run outcome, for orchestrator witnesses. -/
def demoRun : Orchestrator.RunOutcome :=
  { output := "an answer"
    plan := "a plan"
    mistakes := ""
    fixes := ""
    time_seconds := 2
    retry_count := 0 }

/- ## Claim theorems -/

/-- C3 (counterexample): the claim says the durable `method_cards` table has
exactly the eleven columns including `upvotes`; the repository's own
`CREATE TABLE` DDL (HOW-STUFF-WORKS.md) creates it without `upvotes`, so
the claimed column list differs from the created one. -/
theorem c3_upvotes_column_missing :
    "upvotes" ∈ spec_persisted_columns ∧
    "upvotes" ∉ method_cards_columns ∧
    spec_persisted_columns ≠ method_cards_columns := by
  decide

/-- C3 (amended): the durable backend's table is created with exactly the
columns `id, timestamp, task_intent, context, plan, tool_calls, mistakes,
fixes, outcome_score, tags` — without `upvotes` — physically ordered by
`(timestamp, id)`; the `upvotes` column exists only after the documented
manual `ALTER TABLE ... ADD COLUMN upvotes Int64 DEFAULT 0`, after which
the column set matches the spec's claimed list. -/
theorem c3_method_cards_layout :
    method_cards_columns =
      ["id", "timestamp", "task_intent", "context", "plan", "tool_calls",
       "mistakes", "fixes", "outcome_score", "tags"] ∧
    method_cards_order_by = ["timestamp", "id"] ∧
    "upvotes" ∉ method_cards_columns ∧
    method_cards_columns_after_alter = spec_persisted_columns := by
  decide

/-- C6: the fallback scoring path is a deterministic pure function of the
output text alone — two calls on identical input yield identical results —
and its value always lies in [0, 10].  (It is a total Lean function of the
text, so it performs no external calls and uses no randomness.) -/
theorem c6_fallback_score_pure_and_bounded (x y : String) :
    (x = y → Scorer.fallback_score x = Scorer.fallback_score y) ∧
    0 ≤ Scorer.fallback_score x ∧ Scorer.fallback_score x ≤ 10 := by
  refine ⟨fun h => by rw [h], ?_, ?_⟩
  · exact le_min (by norm_num) (le_max_left 0 _)
  · exact min_le_left 10 _

/-- C6 witness: the fallback score of a concrete output, computed twice,
is equal, and lies in [0, 10]. -/
theorem c6_fallback_score_witness :
    (Scorer.fallback_score "abc" = Scorer.fallback_score "abc") ∧
    0 ≤ Scorer.fallback_score "abc" ∧ Scorer.fallback_score "abc" ≤ 10 :=
  ⟨(c6_fallback_score_pure_and_bounded "abc" "abc").1 rfl,
   (c6_fallback_score_pure_and_bounded "abc" "abc").2⟩

/-- C8: `buildHeaders` always maps `Content-Type` to `application/json`,
maps `X-Agent-ID` to `agentId.trim()` exactly when `agentId` is a string
whose trim is non-empty, and contains no other keys. -/
theorem c8_buildHeaders_spec (agentId : Option String) :
    (Frontend.buildHeaders agentId).lookup "Content-Type" = some "application/json" ∧
    ((Frontend.buildHeaders agentId).lookup "X-Agent-ID" =
      match agentId with
      | some a => if trimStr a = "" then none else some (trimStr a)
      | none => none) ∧
    (∀ k v, (k, v) ∈ Frontend.buildHeaders agentId →
      k = "Content-Type" ∨ k = "X-Agent-ID") := by
  match agentId with
  | none => refine ⟨rfl, rfl, ?_⟩; intro k v h; simp [Frontend.buildHeaders] at h; left; exact h.1
  | some a =>
    by_cases h : trimStr a = ""
    · refine ⟨?_, ?_, ?_⟩
      · simp [Frontend.buildHeaders, h, List.lookup]
      · simp [Frontend.buildHeaders, h, List.lookup]
      · intro k v hm
        simp [Frontend.buildHeaders, h] at hm
        left; exact hm.1
    · refine ⟨?_, ?_, ?_⟩
      · simp [Frontend.buildHeaders, h, List.lookup]
      · simp only [Frontend.buildHeaders, if_neg h, List.lookup]
        rw [show ("X-Agent-ID" == "Content-Type") = false from by decide,
          show ("X-Agent-ID" == "X-Agent-ID") = true from by decide]
      · intro k v hm
        simp [Frontend.buildHeaders, h] at hm
        rcases hm with hm | hm
        · left; exact hm.1
        · right; exact hm.1

/-- C8 witness: at a concrete `agentId` whose trim is non-empty, the header
record holds `Content-Type` and `X-Agent-ID`, and a concrete member's key
is one of the two. -/
theorem c8_buildHeaders_witness :
    (Frontend.buildHeaders (some " bob ")).lookup "Content-Type" = some "application/json" ∧
    ("X-Agent-ID" = "Content-Type" ∨ ("X-Agent-ID" : String) = "X-Agent-ID") :=
  ⟨(c8_buildHeaders_spec (some " bob ")).1,
   (c8_buildHeaders_spec (some " bob ")).2.2 "X-Agent-ID" "bob" (by decide)⟩

/-- C9: `runToStats` renders a missing score as zero — for a non-null run
whose `score` is null the stats object's score string is "0/10" — and a
null run argument yields null. -/
theorem c9_runToStats_null_score (t b : String) (bt : Frontend.BadgeType)
    (r : Frontend.RunResult) :
    Frontend.runToStats none t b bt = none ∧
    (r.score = none →
      (Frontend.runToStats (some r) t b bt).map Frontend.RunStats.score = some "0/10") := by
  refine ⟨rfl, fun h => ?_⟩
  simp only [Frontend.runToStats, h, Option.map_some']
  decide

/-- C9 witness: a concrete run with a null score renders as "0/10". -/
theorem c9_runToStats_witness :
    (Frontend.runToStats
        (some { output := some "out", plan := "p", retry_count := some 0,
                time_seconds := 1, score := none, cards_used := none,
                cards_used_ids := none })
        "Run 1" "no playbooks" Frontend.BadgeType.default).map Frontend.RunStats.score =
      some "0/10" :=
  (c9_runToStats_null_score "Run 1" "no playbooks" Frontend.BadgeType.default
    { output := some "out", plan := "p", retry_count := some 0, time_seconds := 1,
      score := none, cards_used := none, cards_used_ids := none }).2 rfl

/-- C1: in every comparison result, `delta` is present exactly when both the
baseline score and the augmented score are present — a missing phase score
yields an explicitly absent delta, not zero and not a default number.  In
particular, when the baseline phase timed out (`none`) and the augmented
phase succeeded, the result has an absent baseline, a populated augmented
run with a present score, and an absent delta. -/
theorem c1_delta_absent_iff_scores (ev : Option (String → ℚ)) (ok : Bool) (s : CardStore)
    (now : Nat) (task : String) (wb : Bool) (base aug : Option Orchestrator.RunOutcome) :
    ((Orchestrator.run_compare ev ok s now task wb base aug).1.delta.isSome ↔
      ((Orchestrator.run_compare ev ok s now task wb base aug).1.score_static.isSome ∧
       (Orchestrator.run_compare ev ok s now task wb base aug).1.score_agentwiki.isSome)) ∧
    (trimStr task ≠ "" → base = none → ∀ r, aug = some r →
      (Orchestrator.run_compare ev ok s now task wb base aug).1.run_static = none ∧
      (Orchestrator.run_compare ev ok s now task wb base aug).1.run_agentwiki = some r ∧
      (Orchestrator.run_compare ev ok s now task wb base aug).1.delta = none ∧
      (Orchestrator.run_compare ev ok s now task wb base aug).1.score_agentwiki =
        some (Scorer.score ev r.output)) := by
  unfold Orchestrator.run_compare
  by_cases ht : trimStr task = ""
  · rw [if_pos ht]
    exact ⟨by simp, fun h => absurd ht h⟩
  · rw [if_neg ht]
    constructor
    · cases base <;> cases aug <;> simp
    · intro _ hb r ha
      subst hb
      subst ha
      simp

/-- C1 witness: baseline timed out, augmented succeeded on a concrete task —
the result has no baseline run, the augmented run, no delta, and a present
augmented score. -/
theorem c1_delta_witness :
    (Orchestrator.run_compare none true demoStore 2 "explain recursion" false none
        (some demoRun)).1.run_static = none ∧
    (Orchestrator.run_compare none true demoStore 2 "explain recursion" false none
        (some demoRun)).1.run_agentwiki = some demoRun ∧
    (Orchestrator.run_compare none true demoStore 2 "explain recursion" false none
        (some demoRun)).1.delta = none ∧
    (Orchestrator.run_compare none true demoStore 2 "explain recursion" false none
        (some demoRun)).1.score_agentwiki = some (Scorer.score none demoRun.output) :=
  (c1_delta_absent_iff_scores none true demoStore 2 "explain recursion" false none
    (some demoRun)).2 (by decide) rfl demoRun rfl

/-- C7: `run_compare` is a total function (a comparison request never
throws), its `error` field is non-null exactly when the task input is
invalid (blank) or both run phases failed, and that `error` field is
independent of the scoring evaluator's availability and of the durable
storage backend's health. -/
theorem c7_error_only_invalid_or_both_failed (ev ev' : Option (String → ℚ)) (ok ok' : Bool)
    (s : CardStore) (now : Nat) (task : String) (wb : Bool)
    (base aug : Option Orchestrator.RunOutcome) :
    ((Orchestrator.run_compare ev ok s now task wb base aug).1.error.isSome ↔
      (trimStr task = "" ∨ (base = none ∧ aug = none))) ∧
    (Orchestrator.run_compare ev ok s now task wb base aug).1.error =
      (Orchestrator.run_compare ev' ok' s now task wb base aug).1.error := by
  unfold Orchestrator.run_compare
  by_cases ht : trimStr task = ""
  · rw [if_pos ht, if_pos ht]
    exact ⟨by simp [ht], rfl⟩
  · rw [if_neg ht, if_neg ht]
    refine ⟨?_, rfl⟩
    cases base <;> cases aug <;> simp [ht]

/-- C2: for every store, query and limit, `search` returns at most `limit`
cards, and when the query is non-empty every returned card contains at
least one whitespace token of the query as a case-insensitive substring of
its `task_intent`, its `plan`, or one of its tags. -/
theorem c2_search_limit_and_matches (s : CardStore) (q : String) (limit : Nat) :
    (Retriever.search s q limit).length ≤ limit ∧
    (q ≠ "" → ∀ c ∈ Retriever.search s q limit, Retriever.MatchesQuery q c) := by
  constructor
  · rw [Retriever.search]
    rw [List.length_take]
    exact min_le_left _ _
  · intro hq c hc
    rw [Retriever.search] at hc
    have hc' := mem_sortBy.mp (List.mem_of_mem_take hc)
    rw [if_neg hq] at hc'
    have hmatch := (List.mem_filter.mp hc').2
    rw [Retriever.cardMatches, List.any_eq_true] at hmatch
    obtain ⟨t, ht, hp⟩ := hmatch
    refine ⟨t, ht, ?_⟩
    simp only [Bool.or_eq_true, List.any_eq_true, containsSub, decide_eq_true_eq] at hp
    rcases hp with (hp | hp) | hp
    · exact Or.inl hp
    · exact Or.inr (Or.inl hp)
    · obtain ⟨tag, htag, hsub⟩ := hp
      exact Or.inr (Or.inr ⟨tag, htag, hsub⟩)

/-- C2 witness: the spec's §8 scenario — a store seeded with the "explain
recursion basics" card; `search("recursion", 10)` returns at most 10 cards
and each one matches a token of the query. -/
theorem c2_search_witness :
    (Retriever.search demoStore "recursion" 10).length ≤ 10 ∧
    (∀ c ∈ Retriever.search demoStore "recursion" 10,
      Retriever.MatchesQuery "recursion" c) :=
  ⟨(c2_search_limit_and_matches demoStore "recursion" 10).1,
   (c2_search_limit_and_matches demoStore "recursion" 10).2 (by decide)⟩

namespace CardStore

/-- The per-card rewrite `increment_upvote` applies preserves ids, so
`find?` by id commutes with it. -/
theorem find?_bump (cards : List MethodCard) (id target : Nat) :
    (cards.map (fun d => if d.id == id then { d with upvotes := d.upvotes + 1 } else d)).find?
        (fun c => c.id == target) =
      (cards.find? (fun c => c.id == target)).map
        (fun d => if d.id == id then { d with upvotes := d.upvotes + 1 } else d) := by
  rw [List.find?_map]
  have hpred : ((fun c : MethodCard => c.id == target) ∘ fun d =>
      if d.id == id then { d with upvotes := d.upvotes + 1 } else d) =
      fun c : MethodCard => c.id == target := by
    funext d
    simp only [Function.comp]
    by_cases h : (d.id == id) = true
    · rw [if_pos h]
    · rw [if_neg h]
  rw [hpred]

/-- The stored upvote count of `id` after bumping every card whose id is
`j`: the count of the card `find?` locates, plus one when that card's id is
`j`. -/
theorem upvotesOf_bump (s : CardStore) (j id : Nat) :
    upvotesOf { s with cards := s.cards.map (fun d =>
        if d.id == j then { d with upvotes := d.upvotes + 1 } else d) } id =
      (s.cards.find? (fun c => c.id == id)).map
        (fun d => if d.id == j then d.upvotes + 1 else d.upvotes) := by
  rw [upvotesOf]
  dsimp only
  rw [find?_bump]
  cases hd : s.cards.find? (fun c => c.id == id) with
  | none => rfl
  | some d => by_cases hij : d.id = j <;> simp [hij]

/-- `put` appends at the end, so the record `find?` locates for a present
id — and hence its upvote count — is unchanged. -/
theorem upvotesOf_put (s : CardStore) (ok : Bool) (now : Nat) (c : CardInput)
    (id : Nat) (d : MethodCard) (hd : s.cards.find? (fun x => x.id == id) = some d) :
    upvotesOf (put s ok now c).1 id = some d.upvotes := by
  rw [upvotesOf]
  dsimp only [put]
  rw [List.find?_append, hd]
  rfl

/-- A failed id lookup makes `applyOp` of an upvote a no-op. -/
theorem applyOp_upvote_none (s : CardStore) (j : Nat)
    (h : s.cards.find? (fun c => c.id == j) = none) :
    applyOp s (StoreOp.upvoteOp j) = s := by
  simp [applyOp, increment_upvote, h]

/-- A successful id lookup makes `applyOp` of an upvote bump that id. -/
theorem applyOp_upvote_some (s : CardStore) (j : Nat) (cj : MethodCard)
    (h : s.cards.find? (fun c => c.id == j) = some cj) :
    applyOp s (StoreOp.upvoteOp j) =
      { s with cards := s.cards.map (fun d =>
          if d.id == j then { d with upvotes := d.upvotes + 1 } else d) } := by
  simp [applyOp, increment_upvote, h]

/-- On a present id, `increment_upvote` succeeds, returns the bumped count,
and the stored count becomes that bumped count. -/
theorem increment_upvote_ok (s : CardStore) (id u : Nat)
    (h : upvotesOf s id = some u) :
    ∃ s', increment_upvote s id = Except.ok (s', u + 1) ∧
      upvotesOf s' id = some (u + 1) := by
  rw [upvotesOf] at h
  obtain ⟨c, hc, hcu⟩ := Option.map_eq_some'.mp h
  have hcid : (c.id == id) = true := @List.find?_some _ (fun x => x.id == id) c s.cards hc
  refine ⟨{ s with cards := s.cards.map (fun d =>
      if d.id == id then { d with upvotes := d.upvotes + 1 } else d) }, ?_, ?_⟩
  · simp only [increment_upvote, hc, hcu]
  · rw [upvotesOf_bump, hc, Option.map_some', if_pos hcid, hcu]

/-- One store operation never decreases the stored upvote count of a
present id. -/
theorem upvotesOf_applyOp_ge (s : CardStore) (op : StoreOp) (id u : Nat)
    (h : upvotesOf s id = some u) :
    ∃ u', u ≤ u' ∧ upvotesOf (applyOp s op) id = some u' := by
  rw [upvotesOf] at h
  obtain ⟨d, hd, hdu⟩ := Option.map_eq_some'.mp h
  cases op with
  | putOp ok now c =>
    exact ⟨u, le_refl u, by rw [applyOp, upvotesOf_put s ok now c id d hd, hdu]⟩
  | upvoteOp j =>
    cases hfind : s.cards.find? (fun c => c.id == j) with
    | none =>
      refine ⟨u, le_refl u, ?_⟩
      rw [applyOp_upvote_none s j hfind, upvotesOf, hd, Option.map_some', hdu]
    | some cj =>
      rw [applyOp_upvote_some s j cj hfind, upvotesOf_bump, hd, Option.map_some']
      by_cases hij : (d.id == j) = true
      · exact ⟨u + 1, Nat.le_succ u, by rw [if_pos hij, hdu]⟩
      · exact ⟨u, le_refl u, by rw [if_neg hij, hdu]⟩

/-- No sequence of store operations ever decreases the stored upvote count
of a present id. -/
theorem upvotesOf_applyOps_ge (ops : List StoreOp) (s : CardStore) (id u : Nat)
    (h : upvotesOf s id = some u) :
    ∃ u', u ≤ u' ∧ upvotesOf (applyOps s ops) id = some u' := by
  induction ops generalizing s u with
  | nil => exact ⟨u, le_refl u, h⟩
  | cons op ops ih =>
    obtain ⟨u₁, hu₁, h₁⟩ := upvotesOf_applyOp_ge s op id u h
    obtain ⟨u', hu', h'⟩ := ih (applyOp s op) u₁ h₁
    exact ⟨u', le_trans hu₁ hu', h'⟩

/-- Upvoting a present id `N` times sequentially adds exactly `N`. -/
theorem upvotesOf_upvoteN (s : CardStore) (id u : Nat) (N : Nat)
    (h : upvotesOf s id = some u) :
    upvotesOf (upvoteN s id N) id = some (u + N) := by
  induction N with
  | zero => simpa using h
  | succ n ih =>
    obtain ⟨s', hok, hs'⟩ := increment_upvote_ok (upvoteN s id n) id (u + n) ih
    unfold upvoteN
    rw [hok, hs', Nat.add_assoc]

end CardStore

/-- C4: for every stored card id, upvoting it `N` times sequentially
increases its `upvotes` by exactly `N`; the stored count of a present id
never decreases under any sequence of store operations; and
`increment_upvote` on an absent id fails with `NotFound`. -/
theorem c4_upvote_exact_monotone_notfound (s : CardStore) (id u N : Nat)
    (ops : List CardStore.StoreOp) :
    (CardStore.upvotesOf s id = some u →
      CardStore.upvotesOf (CardStore.upvoteN s id N) id = some (u + N)) ∧
    (CardStore.upvotesOf s id = some u →
      ∃ u', u ≤ u' ∧ CardStore.upvotesOf (CardStore.applyOps s ops) id = some u') ∧
    (CardStore.upvotesOf s id = none →
      CardStore.increment_upvote s id = Except.error StoreError.NotFound) := by
  refine ⟨fun h => CardStore.upvotesOf_upvoteN s id u N h,
    fun h => CardStore.upvotesOf_applyOps_ge ops s id u h, fun h => ?_⟩
  rw [CardStore.upvotesOf] at h
  rw [CardStore.increment_upvote, Option.map_eq_none'.mp h]

/-- C4 witness: on the demo store, two sequential upvotes of card 0 take its
count from 0 to 2; an upvote plus a put never decrease it; and upvoting the
absent id 5 fails with `NotFound`. -/
theorem c4_upvote_witness :
    CardStore.upvotesOf (CardStore.upvoteN demoStore 0 2) 0 = some (0 + 2) ∧
    (∃ u', 0 ≤ u' ∧
      CardStore.upvotesOf
        (CardStore.applyOps demoStore
          [CardStore.StoreOp.upvoteOp 0,
           CardStore.StoreOp.putOp true 5
             { task_intent := "t", context := "", plan := "p", tool_calls := "",
               mistakes := "", fixes := "", outcome_score := 7, tags := [] }]) 0 =
        some u') ∧
    CardStore.increment_upvote demoStore 5 = Except.error StoreError.NotFound :=
  ⟨(c4_upvote_exact_monotone_notfound demoStore 0 0 2 []).1 (by decide),
   (c4_upvote_exact_monotone_notfound demoStore 0 0 2
      [CardStore.StoreOp.upvoteOp 0,
       CardStore.StoreOp.putOp true 5
         { task_intent := "t", context := "", plan := "p", tool_calls := "",
           mistakes := "", fixes := "", outcome_score := 7, tags := [] }]).2.1 (by decide),
   (c4_upvote_exact_monotone_notfound demoStore 5 0 0 []).2.2 (by decide)⟩

/-- C5: for every well-formed store, `get` after `put` returns a stored
record equal to the input card in every field except `upvotes`, which is 0,
and except the `id` and `timestamp` that `put` assigns. -/
theorem c5_get_put_roundtrip (s : CardStore) (ok : Bool) (now : Nat) (c : CardInput)
    (hwf : CardStore.Wf s) :
    CardStore.get (CardStore.put s ok now c).1 (CardStore.put s ok now c).2 =
      Except.ok
        { id := s.nextId
          timestamp := now
          task_intent := c.task_intent
          context := c.context
          plan := c.plan
          tool_calls := c.tool_calls
          mistakes := c.mistakes
          fixes := c.fixes
          outcome_score := c.outcome_score
          tags := c.tags
          upvotes := 0 } := by
  have hnone : s.cards.find? (fun d => d.id == s.nextId) = none := by
    rw [List.find?_eq_none]
    intro d hd
    simp only [beq_iff_eq]
    exact Nat.ne_of_lt (hwf d hd)
  rw [CardStore.get]
  simp only [CardStore.put, List.find?_append, hnone, Option.none_or, List.find?_cons,
    beq_self_eq_true, List.find?_nil]

/-- C5 witness: putting a concrete card into the empty store and getting it
back yields the input fields with `upvotes = 0` and the assigned id and
timestamp. -/
theorem c5_get_put_witness :
    CardStore.get
        (CardStore.put CardStore.empty true 7
          { task_intent := "t", context := "ctx", plan := "p", tool_calls := "tc",
            mistakes := "m", fixes := "f", outcome_score := 9, tags := ["a"] }).1
        (CardStore.put CardStore.empty true 7
          { task_intent := "t", context := "ctx", plan := "p", tool_calls := "tc",
            mistakes := "m", fixes := "f", outcome_score := 9, tags := ["a"] }).2 =
      Except.ok
        { id := 0, timestamp := 7, task_intent := "t", context := "ctx", plan := "p",
          tool_calls := "tc", mistakes := "m", fixes := "f", outcome_score := 9,
          tags := ["a"], upvotes := 0 } :=
  c5_get_put_roundtrip CardStore.empty true 7
    { task_intent := "t", context := "ctx", plan := "p", tool_calls := "tc",
      mistakes := "m", fixes := "f", outcome_score := 9, tags := ["a"] }
    (by decide)

/-- C10: `getRunStatusLabel` returns the label of the `RUN_STEPS` entry at
index `stepIndex elapsedSec`; that entry has the greatest `afterSec` that is
at most `elapsedSec` (and when `elapsedSec` is below every threshold,
i.e. negative, the result defaults to "Running static agent…"); and the
returned step index is monotonically non-decreasing in `elapsedSec`. -/
theorem c10_getRunStatusLabel_greatest_step (e e' : ℚ) :
    Frontend.getRunStatusLabel e =
      (Frontend.RUN_STEPS.getD (Frontend.stepIndex e) (0, "")).2 ∧
    ((Frontend.RUN_STEPS.getD (Frontend.stepIndex e) (0, "")).1 ≤ e ∨
      (e < 0 ∧ Frontend.stepIndex e = 0 ∧
        Frontend.getRunStatusLabel e = "Running static agent…")) ∧
    (∀ s ∈ Frontend.RUN_STEPS, s.1 ≤ e →
      s.1 ≤ (Frontend.RUN_STEPS.getD (Frontend.stepIndex e) (0, "")).1) ∧
    (e ≤ e' → Frontend.stepIndex e ≤ Frontend.stepIndex e') := by
  refine ⟨?_, ?_, ?_, fun h => ?_⟩
  · rw [Frontend.getRunStatusLabel_eq]
    unfold Frontend.stepIndex
    split_ifs <;> rfl
  · rcases lt_or_le e 0 with h | h
    · right
      refine ⟨h, ?_, ?_⟩
      · unfold Frontend.stepIndex
        split_ifs <;> first | rfl | linarith
      · rw [Frontend.getRunStatusLabel_eq]
        split_ifs <;> first | rfl | linarith
    · left
      unfold Frontend.stepIndex
      split_ifs <;>
        simp only [Frontend.RUN_STEPS, List.getD_cons_succ, List.getD_cons_zero] <;>
        linarith
  · intro s hs hse
    fin_cases hs <;>
      simp only at hse <;>
      unfold Frontend.stepIndex <;>
      split_ifs <;>
        simp only [Frontend.RUN_STEPS, List.getD_cons_succ, List.getD_cons_zero] <;>
        linarith
  · unfold Frontend.stepIndex
    split_ifs <;> linarith

/-- C10 witness: at elapsed 3 the label is the step at index `stepIndex 3`;
the step at 13 dominates every threshold at most 13; and the index is
non-decreasing from 3 to 13. -/
theorem c10_getRunStatusLabel_witness :
    Frontend.getRunStatusLabel 3 =
      (Frontend.RUN_STEPS.getD (Frontend.stepIndex 3) (0, "")).2 ∧
    ((0 : ℚ), "Running static agent…").1 ≤
      (Frontend.RUN_STEPS.getD (Frontend.stepIndex 13) (0, "")).1 ∧
    Frontend.stepIndex 3 ≤ Frontend.stepIndex 13 :=
  ⟨(c10_getRunStatusLabel_greatest_step 3 13).1,
   (c10_getRunStatusLabel_greatest_step 13 13).2.2.1 (0, "Running static agent…")
     (by decide) (by norm_num),
   (c10_getRunStatusLabel_greatest_step 3 13).2.2.2 (by norm_num)⟩

example : Frontend.getRunStatusLabel 13 = "Running AgentWiki…" := by decide
example : Frontend.getRunStatusLabel (-2) = "Running static agent…" := by decide
example : Frontend.buildHeaders (some "  ") = [("Content-Type", "application/json")] := by decide
example : trimStr " ab c " = "ab c" := by decide
example : splitWs "Explain  recursion" = ["Explain", "recursion"] := by decide
example : Retriever.search demoStore "recursion" 10 = [demoCard] := by decide
example : (CardStore.upvoteN demoStore 0 3).cards.map MethodCard.upvotes = [3] := by decide
